import Mathlib

/-!
Shallow embedding of the apollobot notification subsystem
(`src/apollobot/notifications/`): the event model (`events.py`), the
channel interface (`channel.py`), the router (`router.py`), the email
batching channel (`email.py`), the Telegram and Discord bidirectional
channels (`channels/telegram.py`, `channels/discord.py`) and the
heartbeat monitor (`heartbeat.py`), together with theorems settling the
spec's claims about them.

Python exceptions are modelled with `Except ChannelError`; `async`
sequencing is modelled by monadic sequencing in `Except`, and the
nondeterministic completion order of `asyncio.wait(FIRST_COMPLETED)` is
modelled by an explicit schedule parameter (the list of completed task
positions, in the iteration order of the `done` set).  Monotonic clock
readings are modelled as rationals.
-/

namespace Apollobot

/-- `EventType` enum from `events.py`. -/
inductive EventType where
  | session_started
  | phase_started
  | phase_completed
  | phase_failed
  | checkpoint_approval
  | finding
  | budget_warning
  | session_completed
  | session_failed
  | heartbeat
deriving DecidableEq, Repr

/-- The `str`-enum value of an `EventType` (`EventType.X.value` in Python). -/
def EventType.value : EventType → String
  | .session_started => "session_started"
  | .phase_started => "phase_started"
  | .phase_completed => "phase_completed"
  | .phase_failed => "phase_failed"
  | .checkpoint_approval => "checkpoint_approval"
  | .finding => "finding"
  | .budget_warning => "budget_warning"
  | .session_completed => "session_completed"
  | .session_failed => "session_failed"
  | .heartbeat => "heartbeat"

/-- `EventSeverity` enum from `events.py`. -/
inductive EventSeverity where
  | info
  | warning
  | error
  | critical
deriving DecidableEq, Repr

/-- `NotificationEvent` model from `events.py`.  The free-form
`details: dict[str, Any]` payload is approximated by string pairs; no
claim inspects it. -/
structure NotificationEvent where
  event_type : EventType
  severity : EventSeverity := .info
  session_id : String
  phase : String := ""
  title : String := ""
  summary : String := ""
  details : List (String × String) := []
  requires_response : Bool := false
  timestamp : String := ""
deriving DecidableEq, Repr

/-- Errors a channel operation can raise (any Python `Exception`). -/
abbrev ChannelError := String

/-- A registered channel, as the router sees it (`channel.py`):
identity, capability flag, and the four operations.  Each operation is a
suspendable call that may raise, modelled as `Except`-valued. -/
structure Channel where
  name : String
  supports_responses : Bool
  send : NotificationEvent → Except ChannelError Unit
  wait_for_response : NotificationEvent → Except ChannelError Bool
  connect : Except ChannelError Unit
  disconnect : Except ChannelError Unit

/-- Router state (`router.py`): the registration list and the
per-channel-name filter dict.  The dict is modelled as an association
list where the most recent write is placed at the head, so that lookup
(first match) sees the latest assignment, exactly as a Python dict
does. -/
structure NotificationRouter where
  channels : List Channel := []
  filters : List (String × List String) := []

/-- Python dict lookup with default: `filters.get(name, default)`. -/
def dictGetD (fs : List (String × List String)) (name : String)
    (d : List String) : List String :=
  match fs.find? (fun p => p.1 == name) with
  | some p => p.2
  | none => d

/-- The `events or ["*"]` defaulting in `register`: `None` and the empty
list both fall back to the wildcard filter. -/
def orWildcard : Option (List String) → List String
  | none => ["*"]
  | some [] => ["*"]
  | some (e :: rest) => e :: rest

/-- `NotificationRouter.register`: append the channel, assign
`filters[channel.name] = events or ["*"]`. -/
def NotificationRouter.register (r : NotificationRouter) (ch : Channel)
    (events : Option (List String)) : NotificationRouter :=
  { channels := r.channels ++ [ch]
    filters := (ch.name, orWildcard events) :: r.filters }

/-- `NotificationRouter._matches`: the channel's subscribed list (default
wildcard) contains `"*"` or the event type's string value. -/
def NotificationRouter.matches (r : NotificationRouter) (ch : Channel)
    (e : NotificationEvent) : Bool :=
  let subscribed := dictGetD r.filters ch.name ["*"]
  subscribed.contains "*" || subscribed.contains e.event_type.value

/-- The matching channels of a dispatch, paired with their registration
positions (the `for ch in self.channels: if self._matches(ch, event)`
iteration). -/
def NotificationRouter.matchingChans (r : NotificationRouter)
    (e : NotificationEvent) : List (Nat × Channel) :=
  (r.channels.enum).filter (fun p => r.matches p.2 e)

/-- The positions (registration order) of the channels a dispatch of `e`
fans out to. -/
def NotificationRouter.matchingIdxs (r : NotificationRouter)
    (e : NotificationEvent) : List Nat :=
  (r.matchingChans e).map Prod.fst

/-- `NotificationRouter._safe_send`: `try: await channel.send(event)
except Exception: log` — the failure is swallowed. -/
def safeSend (ch : Channel) (e : NotificationEvent) :
    Except ChannelError Unit :=
  match ch.send e with
  | .ok _ => .ok ()
  | .error _ => .ok ()

/-- `NotificationRouter.dispatch`: gather `_safe_send` over every
matching channel.  Returns the positions of the channels whose send was
invoked; an uncaught channel exception would short-circuit the `mapM`
and surface as `.error`. -/
def NotificationRouter.dispatch (r : NotificationRouter)
    (e : NotificationEvent) : Except ChannelError (List Nat) :=
  (r.matchingChans e).mapM
    (fun p => do
      safeSend p.2 e
      pure p.1)

/-- The matching channels partitioned to the `bidirectional` list of
`request_approval` (`supports_responses` true). -/
def NotificationRouter.bidirChans (r : NotificationRouter)
    (e : NotificationEvent) : List (Nat × Channel) :=
  (r.matchingChans e).filter (fun p => p.2.supports_responses)

/-- The matching channels partitioned to the `notify_only` list of
`request_approval`. -/
def NotificationRouter.notifyOnlyChans (r : NotificationRouter)
    (e : NotificationEvent) : List (Nat × Channel) :=
  (r.matchingChans e).filter (fun p => !p.2.supports_responses)

/-- The `for task in done: try: return task.result() except: continue`
loop of `request_approval`, followed by the `return True` fallback:
given the eventual outcomes of the response tasks and the iteration
order of the completed set, the first normally-completed task's value is
returned; if every completed task raised, auto-approve. -/
def resolveDone (results : List (Except ChannelError Bool)) :
    List Nat → Bool
  | [] => true
  | i :: rest =>
    match results[i]?.getD (.error "") with
    | .ok b => b
    | .error _ => resolveDone results rest

/-- `NotificationRouter.request_approval`.  `done` is the schedule: the
positions (into the bidirectional sub-list) of the `wait_for_response`
tasks that `asyncio.wait(FIRST_COMPLETED)` reports completed, in the
iteration order of the `done` set.  Returns the decision together with
the positions of the still-pending tasks whose cancellation was
requested before returning. -/
def NotificationRouter.requestApproval (r : NotificationRouter)
    (e : NotificationEvent) (done : List Nat) :
    Except ChannelError (Bool × List Nat) := do
  let bidirectional := r.bidirChans e
  let notifyOnly := r.notifyOnlyChans e
  let _ ← notifyOnly.mapM (fun p => safeSend p.2 e)
  if bidirectional.isEmpty then
    pure (true, [])
  else do
    let _ ← bidirectional.mapM (fun p => safeSend p.2 e)
    let results := bidirectional.map (fun p => p.2.wait_for_response e)
    let cancelled :=
      (List.range bidirectional.length).filter (fun i => !done.contains i)
    pure (resolveDone results done, cancelled)

/-- Per-channel `try/except` guard used by `connect_all` /
`disconnect_all`. -/
def safeLifecycle (act : Except ChannelError Unit) :
    Except ChannelError Unit :=
  match act with
  | .ok _ => .ok ()
  | .error _ => .ok ()

/-- `NotificationRouter.connect_all`: every channel's `connect`, each
independently guarded.  Returns the positions attempted. -/
def NotificationRouter.connectAll (r : NotificationRouter) :
    Except ChannelError (List Nat) :=
  (r.channels.enum).mapM (fun p => do
    safeLifecycle p.2.connect
    pure p.1)

/-- `NotificationRouter.disconnect_all`: every channel's `disconnect`,
each independently guarded. -/
def NotificationRouter.disconnectAll (r : NotificationRouter) :
    Except ChannelError (List Nat) :=
  (r.channels.enum).mapM (fun p => do
    safeLifecycle p.2.disconnect
    pure p.1)

/-! ### Bidirectional chat channel construction (`telegram.py`, `discord.py`) -/

/-- `TelegramChannel` instance state after `__init__(token, chat_id)`.
The class attribute `supports_responses = True` is never reassigned by
the constructor, so it is recorded as set to `true` unconditionally. -/
structure TelegramChannel where
  token : String
  chat_id : String
  last_update_id : Nat
  supports_responses : Bool

/-- `TelegramChannel.__init__`: stores the credentials and never raises. -/
def TelegramChannel.init (token chat_id : String) : TelegramChannel :=
  { token := token, chat_id := chat_id, last_update_id := 0
    supports_responses := true }

/-- `DiscordChannel` instance state after
`__init__(webhook_url, bot_token=, channel_id=)`. -/
structure DiscordChannel where
  webhook_url : String
  bot_token : String
  channel_id : String
  supports_responses : Bool

/-- `DiscordChannel.__init__`: stores the credentials and never raises;
`if not (bot_token and channel_id): self.supports_responses = False`
(Python string truthiness: the conjunction is truthy iff both strings
are non-empty). -/
def DiscordChannel.init (webhook_url bot_token channel_id : String) :
    DiscordChannel :=
  { webhook_url := webhook_url, bot_token := bot_token
    channel_id := channel_id
    supports_responses := !(bot_token == "" || channel_id == "") }

/-! ### Telegram polling loop (`TelegramChannel.wait_for_response`) -/

/-- One Telegram update as the polling loop reads it: the
`callback_query.data` string (empty when absent) and whether the actor
that pressed the button is a bot (`callback_query.from.is_bot` — present
on the wire, never read by the code). -/
structure TgUpdate where
  update_id : Nat
  cb_data : String
  actor_is_bot : Bool
deriving DecidableEq, Repr

/-- The inner `for update in data["result"]` loop: first update whose
callback data equals the approve key wins with `true`, the deny key with
`false`; the actor is not inspected. -/
def tgProcessUpdates (approveKey denyKey : String) :
    List TgUpdate → Option Bool
  | [] => none
  | u :: rest =>
    if u.cb_data == approveKey then some true
    else if u.cb_data == denyKey then some false
    else tgProcessUpdates approveKey denyKey rest

/-- The callback-data string the approve button carries for an event. -/
def tgApproveKey (session_id phase : String) : String :=
  "approve:" ++ session_id ++ ":" ++ phase

/-- The callback-data string the deny button carries for an event. -/
def tgDenyKey (session_id phase : String) : String :=
  "deny:" ++ session_id ++ ":" ++ phase

/-- The `while time < deadline` polling loop, as the decision it
returns early with (`none` = the loop fell through to the deadline).
A poll-level HTTP error is logged, slept over, and polling continues;
the update-id cursor bump only affects which updates the platform hands
to later polls, which the trace already fixes. -/
def tgFindDecision (approveKey denyKey : String) :
    List (Except ChannelError (List TgUpdate)) → Option Bool
  | [] => none
  | .error _ :: rest => tgFindDecision approveKey denyKey rest
  | .ok ups :: rest =>
    match tgProcessUpdates approveKey denyKey ups with
    | some b => some b
    | none => tgFindDecision approveKey denyKey rest

/-- `TelegramChannel.wait_for_response` over a finite trace of poll
outcomes (the `getUpdates` calls issued before the deadline; the list
ending models the deadline being reached).  Falling off the deadline
returns `true` (timeout auto-approve). -/
def telegramWaitForResponse (session_id phase : String)
    (polls : List (Except ChannelError (List TgUpdate))) : Bool :=
  (tgFindDecision (tgApproveKey session_id phase)
    (tgDenyKey session_id phase) polls).getD true

/-! ### Discord polling loop (`DiscordChannel.wait_for_response`) -/

/-- A user returned by the Discord reactions endpoint. -/
structure DUser where
  is_bot : Bool
deriving DecidableEq, Repr

/-- `any(not u.get("bot", False) for u in users)`. -/
def humanReacted (users : List DUser) : Bool :=
  users.any (fun u => !u.is_bot)

/-- Outcome of one reactions fetch: raised (`httpx.HTTPError`), non-200
status, or a 200 with the user list. -/
abbrev ReactionFetch := Except ChannelError (Option (List DUser))

/-- The deny-emoji leg of one poll iteration: a 200 response with a
non-bot reaction returns the deny decision; an HTTP error aborts the
iteration, a non-200 status or a bots-only reaction list yields
nothing. -/
def dcCheckDeny : ReactionFetch → Option Bool
  | .error _ => none
  | .ok none => none
  | .ok (some users2) => if humanReacted users2 then some false else none

/-- One iteration of the Discord reaction-polling loop: the approve
emoji is checked first, then the deny emoji; an HTTP error aborts the
iteration (both fetches share one `try`), a non-200 status skips that
emoji.  `some b` means the loop returns `b`. -/
def discordIter (approveFetch denyFetch : ReactionFetch) : Option Bool :=
  match approveFetch with
  | .error _ => none
  | .ok none => dcCheckDeny denyFetch
  | .ok (some users) =>
    if humanReacted users then some true else dcCheckDeny denyFetch

/-- The Discord `while time < deadline` loop as the decision it returns
early with (`none` = the loop fell through to the deadline). -/
def dcFindDecision : List (ReactionFetch × ReactionFetch) → Option Bool
  | [] => none
  | (a, d) :: rest =>
    match discordIter a d with
    | some b => some b
    | none => dcFindDecision rest

/-- The Discord reaction-polling loop over a finite trace of iterations
(the iterations run before the deadline); `messages` is the initial
channel-history fetch (an exception or an empty history returns `true`
immediately).  The polled message is simply the most recent message in
the channel — the event's session and phase play no part.  Falling off
the deadline returns `true`. -/
def discordWaitBody (messages : Except ChannelError (List Nat))
    (iters : List (ReactionFetch × ReactionFetch)) : Bool :=
  match messages with
  | .error _ => true
  | .ok [] => true
  | .ok (_ :: _) => (dcFindDecision iters).getD true

/-- `DiscordChannel.wait_for_response`: a channel demoted to
notify-only returns `true` without polling. -/
def discordWaitForResponse (ch : DiscordChannel)
    (messages : Except ChannelError (List Nat))
    (iters : List (ReactionFetch × ReactionFetch)) : Bool :=
  if ch.supports_responses then discordWaitBody messages iters
  else true

/-! ### Email batching channel (`email.py`) -/

/-- `EmailChannel` state: configuration plus the mutable batching
cursor (`_last_sent`, `_pending`).  Clock readings are rationals. -/
structure EmailChannel where
  smtp_host : String := "localhost"
  smtp_port : Nat := 587
  username : String := ""
  password : String := ""
  from_addr : String := ""
  to_addrs : List String := []
  use_tls : Bool := true
  min_interval : ℚ := 60
  last_sent : ℚ := 0
  pending : List NotificationEvent := []

/-- The immediate-flush test in `EmailChannel.send`: session-terminal
event type or critical severity. -/
def flushImmediately (e : NotificationEvent) : Bool :=
  e.event_type == .session_completed || e.event_type == .session_failed
    || e.severity == .critical

/-- `EmailChannel._send_email`: returns without sending when the batch
or the recipient list is empty, otherwise emits one batched email with
exactly these events (SMTP failures are caught and logged, so the
emission here is the attempt). -/
def sendEmailBatch (ch : EmailChannel) (events : List NotificationEvent) :
    List (List NotificationEvent) :=
  if events.isEmpty || ch.to_addrs.isEmpty then [] else [events]

/-- `EmailChannel.send` at monotonic time `now`: critical/terminal
events flush pending plus themselves immediately; others join the
pending queue, which flushes when `min_interval` has elapsed since the
last flush.  Returns the new state and the emails emitted. -/
def EmailChannel.send (ch : EmailChannel) (e : NotificationEvent)
    (now : ℚ) : EmailChannel × List (List NotificationEvent) :=
  if flushImmediately e then
    ({ ch with pending := [], last_sent := now },
      sendEmailBatch ch (ch.pending ++ [e]))
  else
    let pending := ch.pending ++ [e]
    if ch.min_interval ≤ now - ch.last_sent then
      ({ ch with pending := [], last_sent := now },
        sendEmailBatch ch pending)
    else
      ({ ch with pending := pending }, [])

/-- Run `send` over a timed event sequence, concatenating emissions. -/
def EmailChannel.run (ch : EmailChannel) :
    List (NotificationEvent × ℚ) → EmailChannel × List (List NotificationEvent)
  | [] => (ch, [])
  | (e, t) :: rest =>
    let (ch1, out1) := ch.send e t
    let (ch2, out2) := ch1.run rest
    (ch2, out1 ++ out2)

/-! ### Heartbeat monitor (`heartbeat.py`) -/

/-- `HeartbeatMonitor` state: the configured interval and the optional
background task handle (`_task`); status fields included for shape. -/
structure HeartbeatMonitor where
  session_id : String
  interval : ℚ := 300
  task : Option Unit := none
  current_phase : String := ""
  datasets_acquired : Nat := 0
  cost_so_far : ℚ := 0

/-- `HeartbeatMonitor.start`: `if self.interval <= 0: return` — no task
is created; otherwise the loop task is scheduled. -/
def HeartbeatMonitor.start (m : HeartbeatMonitor) : HeartbeatMonitor :=
  if m.interval ≤ 0 then m
  else { m with task := some () }

/-- `HeartbeatMonitor.stop`: cancels and awaits the task if one exists
and swallows the expected `CancelledError`; a no-op when idle.  Total
(`.ok` always): `stop` never raises. -/
def HeartbeatMonitor.stop (m : HeartbeatMonitor) :
    Except ChannelError HeartbeatMonitor :=
  match m.task with
  | none => .ok m
  | some _ => .ok { m with task := none }

/-- Heartbeats the running `_loop` dispatches within `t` seconds of
wall-clock time: the loop sleeps `interval` then dispatches, so one
dispatch per full interval elapsed.  The loop task only ever exists
with a positive interval (`start` guards); the guard below merely keeps
the definition total. -/
def heartbeatLoopCount (interval t : ℚ) : Nat :=
  if 0 < interval then (Int.toNat ⌊t / interval⌋) else 0

/-- Events the monitor dispatches within `t` seconds: none when no loop
task exists. -/
def HeartbeatMonitor.dispatchCount (m : HeartbeatMonitor) (t : ℚ) : Nat :=
  match m.task with
  | none => 0
  | some _ => heartbeatLoopCount m.interval t

/-- One `register` call recorded as data, for reasoning about
registration sequences. -/
structure Registration where
  channel : Channel
  events : Option (List String)

/-- Build a router from a sequence of `register` calls on a fresh
router. -/
def buildRouter (regs : List Registration) : NotificationRouter :=
  regs.foldl (fun r g => r.register g.channel g.events) {}

/-! ### Basic lemmas -/

/-- `_safe_send` never raises, whatever the channel's `send` does. -/
@[simp] theorem safeSend_ok (ch : Channel) (e : NotificationEvent) :
    safeSend ch e = .ok () := by
  unfold safeSend
  cases ch.send e <;> rfl

/-- The per-channel lifecycle guard never raises. -/
@[simp] theorem safeLifecycle_ok (act : Except ChannelError Unit) :
    safeLifecycle act = .ok () := by
  unfold safeLifecycle
  cases act <;> rfl

/-- Gathering an always-guarded per-channel action over an indexed list
completes with exactly the indices, in order. -/
theorem mapM_guarded {β : Type} (l : List (Nat × β))
    (f : Nat × β → Except ChannelError Unit) (hf : ∀ p, f p = .ok ()) :
    (l.mapM fun p => do f p; pure p.1) = Except.ok (l.map Prod.fst) := by
  induction l with
  | nil => rfl
  | cons p rest ih =>
    rw [List.mapM_cons, ih]
    simp only [hf p]
    rfl

/-- Gathering `_safe_send` alone (results discarded) never raises. -/
theorem mapM_safeSend (l : List (Nat × Channel)) (e : NotificationEvent) :
    (l.mapM fun p => safeSend p.2 e) = Except.ok (l.map fun _ => ()) := by
  induction l with
  | nil => rfl
  | cons p rest ih =>
    rw [List.mapM_cons, ih]
    simp only [safeSend_ok]
    rfl

/-- `dispatch` never raises and invokes exactly the matching channels,
whatever each channel's `send` does. -/
theorem dispatch_eq (r : NotificationRouter) (e : NotificationEvent) :
    r.dispatch e = .ok (r.matchingIdxs e) := by
  unfold NotificationRouter.dispatch NotificationRouter.matchingIdxs
  exact mapM_guarded _ _ (fun p => safeSend_ok p.2 e)

/-- `connect_all` never raises and attempts every channel. -/
theorem connectAll_eq (r : NotificationRouter) :
    r.connectAll = .ok ((r.channels.enum).map Prod.fst) := by
  unfold NotificationRouter.connectAll
  exact mapM_guarded _ _ (fun p => safeLifecycle_ok p.2.connect)

/-- `disconnect_all` never raises and attempts every channel. -/
theorem disconnectAll_eq (r : NotificationRouter) :
    r.disconnectAll = .ok ((r.channels.enum).map Prod.fst) := by
  unfold NotificationRouter.disconnectAll
  exact mapM_guarded _ _ (fun p => safeLifecycle_ok p.2.disconnect)

/-- Closed form of `request_approval`: it never raises; with no
bidirectional channel it auto-approves; otherwise it resolves the
first-completed response task and cancels the rest. -/
theorem requestApproval_eq (r : NotificationRouter) (e : NotificationEvent)
    (done : List Nat) :
    r.requestApproval e done =
      .ok (if (r.bidirChans e).isEmpty then (true, ([] : List Nat))
        else
          (resolveDone ((r.bidirChans e).map fun p => p.2.wait_for_response e)
              done,
            (List.range (r.bidirChans e).length).filter
              (fun i => !done.contains i))) := by
  unfold NotificationRouter.requestApproval
  simp only [mapM_safeSend]
  by_cases h : (r.bidirChans e).isEmpty
  · simp [h]
  · simp [h]
    rfl

/-- A matching channel is a registered channel that matches. -/
theorem of_mem_matchingChans {r : NotificationRouter} {e : NotificationEvent}
    {p : Nat × Channel} (hp : p ∈ r.matchingChans e) :
    p.2 ∈ r.channels ∧ r.matches p.2 e = true := by
  unfold NotificationRouter.matchingChans at hp
  obtain ⟨hmem, hmatch⟩ := List.mem_filter.mp hp
  refine ⟨?_, hmatch⟩
  have h := List.mem_enum_iff_getElem?.mp hmem
  exact List.getElem?_mem h

/-- Position `i` is a dispatch target of `e` iff the channel registered
at position `i` matches `e`. -/
theorem mem_matchingIdxs {r : NotificationRouter} {e : NotificationEvent}
    {i : Nat} :
    i ∈ r.matchingIdxs e ↔
      ∃ ch, r.channels[i]? = some ch ∧ r.matches ch e = true := by
  unfold NotificationRouter.matchingIdxs NotificationRouter.matchingChans
  constructor
  · intro h
    obtain ⟨p, hp, hfst⟩ := List.mem_map.mp h
    obtain ⟨hmem, hmatch⟩ := List.mem_filter.mp hp
    have hget := List.mem_enum_iff_getElem?.mp hmem
    subst hfst
    exact ⟨p.2, hget, hmatch⟩
  · rintro ⟨ch, hget, hmatch⟩
    refine List.mem_map.mpr ⟨(i, ch), List.mem_filter.mpr ⟨?_, hmatch⟩, rfl⟩
    exact List.mem_enum_iff_getElem?.mpr hget

/-- The `done`-iteration loop returns the value of a sole normally
completed task. -/
theorem resolveDone_singleton_ok (results : List (Except ChannelError Bool))
    (i : Nat) (b : Bool) (h : results[i]?.getD (.error "") = .ok b) :
    resolveDone results [i] = b := by
  simp [resolveDone, h]

/-- The `done`-iteration loop auto-approves when the sole completed
task raised. -/
theorem resolveDone_singleton_error (results : List (Except ChannelError Bool))
    (i : Nat) (er : ChannelError) (h : results[i]?.getD (.error "") = .error er) :
    resolveDone results [i] = true := by
  simp [resolveDone, h]

/-- The `done`-iteration loop never invents a value: it returns the
auto-approve fallback or the real result of a completed task. -/
theorem resolveDone_no_third_value (results : List (Except ChannelError Bool))
    (done : List Nat) :
    resolveDone results done = true ∨
      ∃ i ∈ done, results[i]?.getD (.error "") = .ok (resolveDone results done) := by
  induction done with
  | nil => exact Or.inl rfl
  | cons j rest ih =>
    cases h : results[j]?.getD (.error "") with
    | ok b =>
      refine Or.inr ⟨j, List.mem_cons_self j rest, ?_⟩
      simp [resolveDone, h]
    | error er =>
      have hres : resolveDone results (j :: rest) = resolveDone results rest := by
        simp [resolveDone, h]
      rw [hres]
      rcases ih with h1 | ⟨k, hk, hk2⟩
      · exact Or.inl h1
      · exact Or.inr ⟨k, List.mem_cons_of_mem j hk, hk2⟩

/-- The `done`-iteration loop over a single response task returns that
task's normal result for any valid completion schedule. -/
theorem resolveDone_single_task (x : Except ChannelError Bool) (b : Bool)
    (hx : x = .ok b) (done : List Nat) (hne : done ≠ [])
    (hlt : ∀ j ∈ done, j < 1) : resolveDone [x] done = b := by
  cases done with
  | nil => exact absurd rfl hne
  | cons j rest =>
    have hj : j = 0 := Nat.lt_one_iff.mp (hlt j (List.mem_cons_self j rest))
    subst hj
    simp [resolveDone, hx]

/-! ### Claim theorems -/

/-- C3.  No exception raised by a channel's `send`, `connect`,
`disconnect` or `wait_for_response` escapes the router's public
methods: for every router — i.e. every registration set and every
choice of channel behaviours, including ones where every operation
raises — and every event, `dispatch` returns normally and still invokes
every matching channel, `request_approval` returns normally under every
completion schedule, and `connect_all` / `disconnect_all` return
normally and still attempt every channel. -/
theorem C3_no_channel_exception_escapes (r : NotificationRouter)
    (e : NotificationEvent) (done : List Nat) :
    r.dispatch e = .ok (r.matchingIdxs e)
    ∧ (∃ x, r.requestApproval e done = .ok x)
    ∧ r.connectAll = .ok ((r.channels.enum).map Prod.fst)
    ∧ r.disconnectAll = .ok ((r.channels.enum).map Prod.fst) :=
  ⟨dispatch_eq r e, ⟨_, requestApproval_eq r e done⟩,
    connectAll_eq r, disconnectAll_eq r⟩

/-- C6.  `request_approval` auto-approves (`true`) whenever no matching
channel supports responses, regardless of how many notify-only channels
match (including none at all). -/
theorem C6_no_bidirectional_auto_approves (r : NotificationRouter)
    (e : NotificationEvent) (done : List Nat)
    (h : ∀ ch ∈ r.channels, r.matches ch e = true →
      ch.supports_responses = false) :
    r.requestApproval e done = .ok (true, []) := by
  have hb : (r.bidirChans e).isEmpty = true := by
    rw [List.isEmpty_iff, NotificationRouter.bidirChans,
      List.filter_eq_nil_iff]
    intro p hp
    obtain ⟨hmem, hmatch⟩ := of_mem_matchingChans hp
    simp [h p.2 hmem hmatch]
  rw [requestApproval_eq, hb]
  rfl

/-- Mock channel in the style of the test-suite's `MockChannel`: fixed
send and response outcomes. -/
def mkChannel (name : String) (bidir : Bool)
    (sendResult : Except ChannelError Unit)
    (waitResult : Except ChannelError Bool) : Channel :=
  { name := name, supports_responses := bidir
    send := fun _ => sendResult
    wait_for_response := fun _ => waitResult
    connect := .ok (), disconnect := .ok () }

/-- Approval-request event used by concrete instantiations. -/
def approvalEvent : NotificationEvent :=
  { event_type := .checkpoint_approval, session_id := "sess-1"
    title := "Checkpoint", summary := "approve?", requires_response := true }

/-- Router with a single notify-only channel. -/
def rC6 : NotificationRouter :=
  ({} : NotificationRouter).register
    (mkChannel "console" false (.ok ()) (.ok true)) none

/-- C6 witness: a router with one notify-only channel (and no
bidirectional channel) auto-approves. -/
theorem C6_witness : rC6.requestApproval approvalEvent [] = .ok (true, []) := by
  refine C6_no_bidirectional_auto_approves rC6 approvalEvent [] ?_
  intro ch hch _
  have : ch = mkChannel "console" false (.ok ()) (.ok true) := by
    simpa [rC6, NotificationRouter.register] using hch
  subst this
  rfl

/-- C7.  When exactly one matching channel is bidirectional and its
`wait_for_response` returns `b` normally, `request_approval` returns
exactly `b`, for every valid completion schedule over the single
response task. -/
theorem C7_single_bidirectional_returns_response (r : NotificationRouter)
    (e : NotificationEvent) (i : Nat) (ch : Channel) (b : Bool)
    (done : List Nat)
    (hb : r.bidirChans e = [(i, ch)])
    (hw : ch.wait_for_response e = .ok b)
    (hne : done ≠ [])
    (hlt : ∀ j ∈ done, j < 1) :
    r.requestApproval e done = .ok (b, []) := by
  rw [requestApproval_eq, hb]
  have h0 : done.contains 0 = true := by
    cases done with
    | nil => exact absurd rfl hne
    | cons j rest =>
      have hj : j = 0 :=
        Nat.lt_one_iff.mp (hlt j (List.mem_cons_self j rest))
      subst hj
      simp
  have hres : resolveDone [ch.wait_for_response e] done = b :=
    resolveDone_single_task _ b hw done hne hlt
  simp [hres, h0, List.filter_eq_nil_iff]
  simpa using h0

/-- Router with a single bidirectional channel that denies. -/
def rC7 : NotificationRouter :=
  ({} : NotificationRouter).register
    (mkChannel "telegram" true (.ok ()) (.ok false)) none

/-- C7 witness: the single bidirectional channel's `false` (deny)
response is returned verbatim. -/
theorem C7_witness : rC7.requestApproval approvalEvent [0] = .ok (false, []) := by
  refine C7_single_bidirectional_returns_response rC7 approvalEvent 0
    (mkChannel "telegram" true (.ok ()) (.ok false)) false [0] ?_ rfl ?_ ?_
  · rfl
  · simp
  · intro j hj
    simpa using hj

/-- C4.  With at least two matching bidirectional channels and any
valid completion schedule, `request_approval` returns normally with:
cancellation requested (before returning) for every response task not
in the completed set; when a single task completed first, its normal
result is returned verbatim and an exception from it yields the
auto-approve fallback `true`; and in every case the decision is either
the auto-approve fallback or the real response of a completed task —
never a third value. -/
theorem C4_approval_race (r : NotificationRouter) (e : NotificationEvent)
    (done : List Nat)
    (hlen : 2 ≤ (r.bidirChans e).length)
    (hne : done ≠ [])
    (hsub : ∀ j ∈ done, j < (r.bidirChans e).length) :
    ∃ result cancelled,
      r.requestApproval e done = .ok (result, cancelled)
      ∧ cancelled = (List.range (r.bidirChans e).length).filter
          (fun i => !done.contains i)
      ∧ (∀ j < (r.bidirChans e).length, j ∉ done → j ∈ cancelled)
      ∧ (∀ i b, done = [i] →
          ((r.bidirChans e).map fun p => p.2.wait_for_response e)[i]?.getD
              (.error "") = .ok b →
          result = b)
      ∧ (∀ i er, done = [i] →
          ((r.bidirChans e).map fun p => p.2.wait_for_response e)[i]?.getD
              (.error "") = .error er →
          result = true)
      ∧ (result = true ∨ ∃ i ∈ done,
          ((r.bidirChans e).map fun p => p.2.wait_for_response e)[i]?.getD
              (.error "") = .ok result) := by
  have hemp : (r.bidirChans e).isEmpty = false := by
    cases hbc : r.bidirChans e with
    | nil => rw [hbc] at hlen; simp at hlen
    | cons a l => rfl
  refine ⟨resolveDone ((r.bidirChans e).map fun p => p.2.wait_for_response e)
      done,
    (List.range (r.bidirChans e).length).filter (fun i => !done.contains i),
    ?_, rfl, ?_, ?_, ?_, ?_⟩
  · rw [requestApproval_eq, hemp]
    simp
  · intro j hj hnd
    refine List.mem_filter.mpr ⟨List.mem_range.mpr hj, ?_⟩
    simpa using hnd
  · rintro i b rfl hget
    exact resolveDone_singleton_ok _ i b hget
  · rintro i er rfl hget
    exact resolveDone_singleton_error _ i er hget
  · exact resolveDone_no_third_value _ done

/-- Router with two bidirectional channels: one that approves (and
completes first) and one that denies (slow). -/
def rC4 : NotificationRouter :=
  (({} : NotificationRouter).register
      (mkChannel "telegram" true (.ok ()) (.ok true)) none).register
    (mkChannel "discord" true (.ok ()) (.ok false)) none

/-- C4 witness: with the fast approver completing first (schedule
`[0]`), the approval decision is `true` and the slow denier (task 1) is
cancelled. -/
theorem C4_witness : rC4.requestApproval approvalEvent [0] = .ok (true, [1]) := by
  obtain ⟨result, cancelled, heq, hcs, -, hok, -, -⟩ :=
    C4_approval_race rC4 approvalEvent [0] (by decide) (by simp)
      (by decide)
  have h1 : result = true := hok 0 true rfl (by rfl)
  have h2 : cancelled = [1] := by rw [hcs]; rfl
  rw [h1, h2] at heq
  exact heq

/-- C9.  A `HeartbeatMonitor` with `interval ≤ 0` and no task (its
freshly constructed state): `start()` is a no-op leaving the monitor
idle, no event is ever dispatched no matter how much wall-clock time
passes (with or without a `start()` call), and `stop()` without a prior
`start()` returns normally, raising nothing. -/
theorem C9_heartbeat_interval_zero (m : HeartbeatMonitor)
    (hint : m.interval ≤ 0) (htask : m.task = none) :
    m.start = m
    ∧ m.start.task = none
    ∧ (∀ t : ℚ, m.start.dispatchCount t = 0)
    ∧ (∀ t : ℚ, m.dispatchCount t = 0)
    ∧ m.stop = .ok m := by
  have hs : m.start = m := by
    unfold HeartbeatMonitor.start
    simp [hint]
  have hc : ∀ t : ℚ, m.dispatchCount t = 0 := by
    intro t
    unfold HeartbeatMonitor.dispatchCount
    rw [htask]
  refine ⟨hs, by rw [hs, htask], by rw [hs]; exact hc, hc, ?_⟩
  unfold HeartbeatMonitor.stop
  rw [htask]

/-- Heartbeat monitor constructed with `interval=0`. -/
def hbC9 : HeartbeatMonitor := { session_id := "sess-1", interval := 0 }

/-- C9 witness: the `interval=0` monitor, once started, has dispatched
nothing after a day, and `stop()` without `start()` returns normally. -/
theorem C9_witness :
    hbC9.start.dispatchCount 86400 = 0 ∧ hbC9.stop = .ok hbC9 :=
  ⟨(C9_heartbeat_interval_zero hbC9 le_rfl rfl).2.2.1 86400,
    (C9_heartbeat_interval_zero hbC9 le_rfl rfl).2.2.2.2⟩

/-- C2 counterexample: a Telegram-style channel constructed with both
required credentials absent (empty) keeps `supports_responses = true` —
it does not demote itself to notify-only as the claim states. -/
theorem C2_counterexample :
    (TelegramChannel.init "" "").supports_responses = true := rfl

/-- C2 (amended).  Construction never raises for either chat channel
(both constructors are total).  The Discord-style channel demotes
itself to `supports_responses = false` exactly when either of
`bot_token` / `channel_id` is absent, and keeps `true` when both are
present; the Telegram-style channel keeps `supports_responses = true`
regardless of its credentials. -/
theorem C2_credential_demotion
    (token chat_id webhook_url bot_token channel_id : String) :
    (TelegramChannel.init token chat_id).supports_responses = true
    ∧ (DiscordChannel.init webhook_url bot_token channel_id).supports_responses
        = (!(bot_token == "" || channel_id == ""))
    ∧ ((bot_token = "" ∨ channel_id = "") →
        (DiscordChannel.init webhook_url bot_token channel_id).supports_responses
          = false)
    ∧ ((bot_token ≠ "" ∧ channel_id ≠ "") →
        (DiscordChannel.init webhook_url bot_token channel_id).supports_responses
          = true) := by
  refine ⟨rfl, rfl, ?_, ?_⟩
  · rintro (h | h) <;> simp [DiscordChannel.init, h]
  · rintro ⟨h1, h2⟩
    simp [DiscordChannel.init, h1, h2]

/-- C2 witness: Discord with absent credentials is notify-only; with
both present it stays bidirectional. -/
theorem C2_witness :
    (DiscordChannel.init "https://example.test/hook" "" "").supports_responses
        = false
    ∧ (DiscordChannel.init "https://example.test/hook" "tok" "42").supports_responses
        = true :=
  ⟨(C2_credential_demotion "" "" "https://example.test/hook" "" "").2.2.1
      (Or.inl rfl),
    (C2_credential_demotion "" "" "https://example.test/hook" "tok" "42").2.2.2
      ⟨by decide, by decide⟩⟩

/-- C10.  Registering a channel with an empty event-filter list is
treated identically to registering it with the wildcard filter: the two
`register` calls produce equal router states, and the channel so
registered receives every dispatched event of every type. -/
theorem C10_empty_filter_is_wildcard (r : NotificationRouter) (ch : Channel) :
    r.register ch (some []) = r.register ch none
    ∧ ∀ e : NotificationEvent,
        r.channels.length ∈ (r.register ch (some [])).matchingIdxs e := by
  refine ⟨rfl, ?_⟩
  intro e
  apply mem_matchingIdxs.mpr
  refine ⟨ch, ?_, ?_⟩
  · simp [NotificationRouter.register]
  · unfold NotificationRouter.matches dictGetD
    simp [NotificationRouter.register, orWildcard]

/-- A sequence of non-critical sends, each within `min_interval` of the
last flush, produces no email and accumulates the whole sequence in the
pending queue (state otherwise unchanged). -/
theorem EmailChannel.run_no_flush (es : List (NotificationEvent × ℚ))
    (ch : EmailChannel)
    (h : ∀ p ∈ es, flushImmediately p.1 = false
      ∧ p.2 - ch.last_sent < ch.min_interval) :
    ch.run es = ({ ch with pending := ch.pending ++ es.map Prod.fst }, []) := by
  induction es generalizing ch with
  | nil => simp [EmailChannel.run]
  | cons p rest ih =>
    obtain ⟨h1, h2⟩ := h p (List.mem_cons_self p rest)
    have hnle : ¬ ch.min_interval ≤ p.2 - ch.last_sent := not_le.mpr h2
    have hrest : ∀ q ∈ rest, flushImmediately q.1 = false
        ∧ q.2 - ch.last_sent < ch.min_interval :=
      fun q hq => h q (List.mem_cons_of_mem p hq)
    obtain ⟨e, t⟩ := p
    simp only [EmailChannel.run, EmailChannel.send, h1, Bool.false_eq_true,
      if_false, if_neg hnle]
    rw [ih { ch with pending := ch.pending ++ [e] }
      (fun q hq => h q (List.mem_cons_of_mem _ hq))]
    simp

/-- Running a concatenated event sequence runs the second part from the
state the first part leaves, concatenating the emissions. -/
theorem EmailChannel.run_append (xs ys : List (NotificationEvent × ℚ))
    (ch : EmailChannel) :
    ch.run (xs ++ ys) =
      (((ch.run xs).1.run ys).1, (ch.run xs).2 ++ ((ch.run xs).1.run ys).2) := by
  induction xs generalizing ch with
  | nil => simp [EmailChannel.run]
  | cons p rest ih =>
    obtain ⟨e, t⟩ := p
    simp only [List.cons_append, EmailChannel.run, List.append_eq]
    rw [ih]
    simp

/-- A pending finding-type event with default severity. -/
def evC5pending : NotificationEvent :=
  { event_type := .finding, session_id := "sess-5", title := "f", summary := "x" }

/-- A critical-severity event. -/
def evC5critical : NotificationEvent :=
  { event_type := .phase_failed, severity := .critical, session_id := "sess-5"
    title := "boom", summary := "x" }

/-- Email channel with no recipient configured and one pending event. -/
def chC5norecipients : EmailChannel := { pending := [evC5pending] }

/-- C5 counterexample: on an email channel with no recipient address
configured, sending a critical event sends no email at all (the pending
queue is silently discarded), contradicting the claim that a critical
send always produces a batched email containing the event and the
pending queue. -/
theorem C5_counterexample :
    flushImmediately evC5critical = true
    ∧ chC5norecipients.pending ≠ []
    ∧ (chC5norecipients.send evC5critical 100).2 = [] :=
  ⟨rfl, by decide, rfl⟩

/-- C5 (amended): provided at least one recipient address is
configured.  A critical-severity or session-terminal send always emits
one batched email immediately, containing that event together with all
previously pending events, and leaves the pending queue empty.  And N
consecutive non-critical events within `min_interval` of the last
flush, followed by a first trigger — a critical event or a send once
the interval has elapsed — produce exactly one flush, containing all N
(together with the triggering event), leaving the queue empty. -/
theorem C5_email_batching (ch : EmailChannel) (hrecip : ch.to_addrs ≠ []) :
    (∀ e now, flushImmediately e = true →
      ch.send e now = ({ ch with pending := [], last_sent := now },
        [ch.pending ++ [e]]))
    ∧ (∀ es e2 t2, ch.pending = [] →
        (∀ p ∈ es, flushImmediately p.1 = false
          ∧ p.2 - ch.last_sent < ch.min_interval) →
        (flushImmediately e2 = true ∨ ch.min_interval ≤ t2 - ch.last_sent) →
        (ch.run (es ++ [(e2, t2)])).2 = [es.map Prod.fst ++ [e2]]
        ∧ (ch.run (es ++ [(e2, t2)])).1.pending = []) := by
  have hto : ch.to_addrs.isEmpty = false := by
    cases hx : ch.to_addrs.isEmpty
    · rfl
    · exact absurd (List.isEmpty_iff.mp hx) hrecip
  have hbatch : ∀ (pend : List NotificationEvent) (e : NotificationEvent),
      sendEmailBatch ch (pend ++ [e]) = [pend ++ [e]] := by
    intro pend e
    unfold sendEmailBatch
    simp [hto]
  constructor
  · intro e now hcrit
    simp only [EmailChannel.send, hcrit, if_true, hbatch]
  · intro es e2 t2 hpend hes htrig
    rw [EmailChannel.run_append, EmailChannel.run_no_flush es ch hes, hpend]
    simp only [List.nil_append]
    set ch1 : EmailChannel := { ch with pending := es.map Prod.fst } with hch1
    have hbatch1 : sendEmailBatch ch1 (es.map Prod.fst ++ [e2]) =
        [es.map Prod.fst ++ [e2]] := by
      unfold sendEmailBatch
      simp [hch1, hto]
    cases hc : flushImmediately e2 with
    | true =>
      simp only [EmailChannel.run, EmailChannel.send, hc, if_true, hch1,
        hbatch1]
      exact ⟨by simp, by simp⟩
    | false =>
      have hiv : ch.min_interval ≤ t2 - ch.last_sent := by
        rcases htrig with h | h
        · rw [hc] at h; exact absurd h (by simp)
        · exact h
      simp only [EmailChannel.run, EmailChannel.send, hc, Bool.false_eq_true,
        if_false, hch1]
      rw [if_pos hiv]
      simp [hbatch1]

/-- Email channel with a recipient, fresh batching state. -/
def chC5configured : EmailChannel := { to_addrs := ["ops@example.test"] }

/-- An informational finding event. -/
def evC5a : NotificationEvent :=
  { event_type := .finding, session_id := "sess-5", title := "a", summary := "x" }

/-- A phase-completion event, default severity. -/
def evC5b : NotificationEvent :=
  { event_type := .phase_completed, session_id := "sess-5", title := "b"
    summary := "x" }

/-- C5 witness: two non-critical sends at times 10 and 20 (within the
60-second interval of the last flush at 0) are batched, and the
critical event at time 30 triggers exactly one email carrying all
three. -/
theorem C5_witness :
    (chC5configured.run ([(evC5a, 10), (evC5b, 20)] ++ [(evC5critical, 30)])).2
      = [[evC5a, evC5b] ++ [evC5critical]] :=
  ((C5_email_batching chC5configured (by decide)).2
    [(evC5a, 10), (evC5b, 20)] evC5critical 30 rfl
    (by
      intro p hp
      fin_cases hp <;> exact ⟨rfl, by norm_num [chC5configured]⟩)
    (Or.inl rfl)).1

/-- The Telegram update loop returns `b` only on an update whose
callback data is the approve key (then `b = true`) or the deny key
(then `b = false`); nothing else about the update is inspected. -/
theorem tgProcessUpdates_eq_some (a d : String) (ups : List TgUpdate)
    (b : Bool) (h : tgProcessUpdates a d ups = some b) :
    ∃ u ∈ ups, (b = true ∧ u.cb_data = a) ∨ (b = false ∧ u.cb_data = d) := by
  induction ups with
  | nil => simp [tgProcessUpdates] at h
  | cons u rest ih =>
    rw [tgProcessUpdates] at h
    by_cases h1 : u.cb_data == a
    · rw [if_pos h1] at h
      obtain rfl : true = b := Option.some.inj h
      exact ⟨u, List.mem_cons_self u rest, Or.inl ⟨rfl, eq_of_beq h1⟩⟩
    · rw [if_neg h1] at h
      by_cases h2 : u.cb_data == d
      · rw [if_pos h2] at h
        obtain rfl : false = b := Option.some.inj h
        exact ⟨u, List.mem_cons_self u rest, Or.inr ⟨rfl, eq_of_beq h2⟩⟩
      · rw [if_neg h2] at h
        obtain ⟨v, hv, hc⟩ := ih h
        exact ⟨v, List.mem_cons_of_mem u hv, hc⟩

/-- A Telegram polling run resolves to a decision only via a matching
callback in one of its successful polls. -/
theorem tgFindDecision_eq_some (a d : String)
    (polls : List (Except ChannelError (List TgUpdate))) (b : Bool)
    (h : tgFindDecision a d polls = some b) :
    ∃ ups, Except.ok ups ∈ polls ∧ ∃ u ∈ ups,
      (b = true ∧ u.cb_data = a) ∨ (b = false ∧ u.cb_data = d) := by
  induction polls with
  | nil => simp [tgFindDecision] at h
  | cons poll rest ih =>
    cases poll with
    | error er =>
      rw [tgFindDecision] at h
      obtain ⟨ups, hm, hu⟩ := ih h
      exact ⟨ups, List.mem_cons_of_mem _ hm, hu⟩
    | ok ups =>
      rw [tgFindDecision] at h
      cases hp : tgProcessUpdates a d ups with
      | some b2 =>
        rw [hp] at h
        have hb : b2 = b := Option.some.inj h
        rw [← hb]
        exact ⟨ups, List.mem_cons_self _ rest,
          tgProcessUpdates_eq_some a d ups b2 hp⟩
      | none =>
        rw [hp] at h
        obtain ⟨ups2, hm, hu⟩ := ih h
        exact ⟨ups2, List.mem_cons_of_mem _ hm, hu⟩

/-- The deny leg yields a decision only from a 200 response whose
reactions include a non-bot user, and that decision is `false`. -/
theorem dcCheckDeny_eq_some (df : ReactionFetch) (b : Bool)
    (h : dcCheckDeny df = some b) :
    b = false ∧ ∃ us, df = .ok (some us) ∧ humanReacted us = true := by
  cases df with
  | error er => simp [dcCheckDeny] at h
  | ok fetched =>
    cases fetched with
    | none => simp [dcCheckDeny] at h
    | some users2 =>
      rw [dcCheckDeny] at h
      by_cases hh : humanReacted users2
      · rw [if_pos hh] at h
        have hb : false = b := Option.some.inj h
        exact ⟨hb.symm, users2, rfl, hh⟩
      · rw [if_neg hh] at h
        simp at h

/-- One Discord poll iteration yields a decision only from a 200
reactions response on which a non-bot user reacted: the approve emoji
giving `true` (checked first), the deny emoji giving `false`. -/
theorem discordIter_eq_some (af df : ReactionFetch) (b : Bool)
    (h : discordIter af df = some b) :
    (b = true ∧ ∃ us, af = .ok (some us) ∧ humanReacted us = true)
    ∨ (b = false ∧ ∃ us, df = .ok (some us) ∧ humanReacted us = true) := by
  cases af with
  | error er => simp [discordIter] at h
  | ok fetched =>
    cases fetched with
    | none =>
      rw [discordIter] at h
      exact Or.inr (dcCheckDeny_eq_some df b h)
    | some users =>
      rw [discordIter] at h
      by_cases hh : humanReacted users
      · rw [if_pos hh] at h
        have hb : true = b := Option.some.inj h
        exact Or.inl ⟨hb.symm, users, rfl, hh⟩
      · rw [if_neg hh] at h
        exact Or.inr (dcCheckDeny_eq_some df b h)

/-- The Discord polling loop yields a decision only via one of its
iterations. -/
theorem dcFindDecision_eq_some (iters : List (ReactionFetch × ReactionFetch))
    (b : Bool) (h : dcFindDecision iters = some b) :
    ∃ pr ∈ iters,
      (b = true ∧ ∃ us, pr.1 = .ok (some us) ∧ humanReacted us = true)
      ∨ (b = false ∧ ∃ us, pr.2 = .ok (some us) ∧ humanReacted us = true) := by
  induction iters with
  | nil => simp [dcFindDecision] at h
  | cons pr rest ih =>
    obtain ⟨af, df⟩ := pr
    rw [dcFindDecision] at h
    cases hi : discordIter af df with
    | some b2 =>
      rw [hi] at h
      have hb : b2 = b := Option.some.inj h
      rw [← hb]
      exact ⟨(af, df), List.mem_cons_self _ rest,
        discordIter_eq_some af df b2 hi⟩
    | none =>
      rw [hi] at h
      obtain ⟨pr2, hm, hc⟩ := ih h
      exact ⟨pr2, List.mem_cons_of_mem _ hm, hc⟩

/-- A single deny callback pressed by a bot actor. -/
def tgC8updates : List TgUpdate :=
  [{ update_id := 7, cb_data := "deny:s:p", actor_is_bot := true }]

/-- A Telegram poll trace consisting of exactly that update. -/
def tgC8polls : List (Except ChannelError (List TgUpdate)) :=
  [.ok tgC8updates]

/-- C8 counterexample: `wait_for_response` of the Telegram channel
returns the deny decision `false` — distinguishable from timeout
auto-approve, which would be `true` — although the only control
actuation in the trace was performed by a bot actor: the code never
inspects who pressed the button. -/
theorem C8_counterexample :
    telegramWaitForResponse "s" "p" tgC8polls = false
    ∧ tgC8polls = [.ok tgC8updates]
    ∧ ∀ u ∈ tgC8updates, u.actor_is_bot = true := by
  exact ⟨rfl, rfl, by decide⟩

/-- C8 (amended).  Telegram: `wait_for_response` returns a decision
(rather than falling through to the deadline) exactly on a polled
callback whose data matches `approve:{session}:{phase}` (giving `true`)
or `deny:{session}:{phase}` (giving `false`), with no check that the
actor is a non-bot; on deadline expiry it returns `true` without
raising.  Discord: a decision arises only from a reaction by a non-bot
actor on the most recent message of the channel (the event's session
and phase are not matched), approve checked before deny; on deadline
expiry, or when fetching the channel history raises or yields no
message, it returns `true` without raising. -/
theorem C8_wait_for_response (sid ph : String)
    (polls : List (Except ChannelError (List TgUpdate)))
    (messages : Except ChannelError (List Nat))
    (iters : List (ReactionFetch × ReactionFetch)) :
    (∀ b, tgFindDecision (tgApproveKey sid ph) (tgDenyKey sid ph) polls
        = some b →
      ∃ ups, Except.ok ups ∈ polls ∧ ∃ u ∈ ups,
        (b = true ∧ u.cb_data = tgApproveKey sid ph)
        ∨ (b = false ∧ u.cb_data = tgDenyKey sid ph))
    ∧ (tgFindDecision (tgApproveKey sid ph) (tgDenyKey sid ph) polls = none →
        telegramWaitForResponse sid ph polls = true)
    ∧ (∀ b, dcFindDecision iters = some b →
        ∃ pr ∈ iters,
          (b = true ∧ ∃ us, pr.1 = .ok (some us) ∧ humanReacted us = true)
          ∨ (b = false ∧ ∃ us, pr.2 = .ok (some us) ∧ humanReacted us = true))
    ∧ (dcFindDecision iters = none → discordWaitBody messages iters = true)
    ∧ (∀ er, messages = .error er → discordWaitBody messages iters = true)
    ∧ (messages = .ok [] → discordWaitBody messages iters = true) := by
  refine ⟨fun b h => tgFindDecision_eq_some _ _ polls b h,
    fun h => ?_, fun b h => dcFindDecision_eq_some iters b h,
    fun h => ?_, fun er h => ?_, fun h => ?_⟩
  · rw [telegramWaitForResponse, h]
    rfl
  · unfold discordWaitBody
    cases messages with
    | error er => rfl
    | ok ms =>
      cases ms with
      | nil => rfl
      | cons m rest => rw [h]; rfl
  · rw [h]
    rfl
  · rw [h]
    rfl

/-- C8 witness: with no poll completing before the deadline, both
channels resolve to timeout auto-approve `true`. -/
theorem C8_witness :
    telegramWaitForResponse "s" "p" [] = true
    ∧ discordWaitBody (.ok [1]) [] = true :=
  ⟨(C8_wait_for_response "s" "p" [] (.ok [1]) []).2.1 rfl,
    (C8_wait_for_response "s" "p" [] (.ok [1]) []).2.2.2.1 rfl⟩

/-- The channel list a registration sequence builds, starting from any
router state: the channels in registration order. -/
theorem foldl_register_channels (regs : List Registration)
    (r0 : NotificationRouter) :
    (regs.foldl (fun r g => r.register g.channel g.events) r0).channels
      = r0.channels ++ regs.map (fun g => g.channel) := by
  induction regs generalizing r0 with
  | nil => simp
  | cons g rest ih =>
    simp only [List.foldl_cons, List.map_cons]
    rw [ih]
    simp [NotificationRouter.register]

/-- The filter dict a registration sequence builds: one entry per
`register` call, most recent first (so dict lookup sees the most recent
assignment per name). -/
theorem foldl_register_filters (regs : List Registration)
    (r0 : NotificationRouter) :
    (regs.foldl (fun r g => r.register g.channel g.events) r0).filters
      = (regs.map fun g => (g.channel.name, orWildcard g.events)).reverse
          ++ r0.filters := by
  induction regs generalizing r0 with
  | nil => simp
  | cons g rest ih =>
    simp only [List.foldl_cons, List.map_cons, List.reverse_cons]
    rw [ih]
    simp [NotificationRouter.register]

/-- Dict-style lookup over the reversed registration entries finds the
entry of registration `i` when no later registration reuses its channel
name. -/
theorem find?_latest_filter (l : List Registration) (i : Nat)
    (hi : i < l.length)
    (hname : ∀ j (hj : j < l.length), i < j →
      (l.get ⟨j, hj⟩).channel.name ≠ (l.get ⟨i, hi⟩).channel.name) :
    ((l.map fun g => (g.channel.name, orWildcard g.events)).reverse).find?
        (fun p => p.1 == (l.get ⟨i, hi⟩).channel.name)
      = some ((l.get ⟨i, hi⟩).channel.name,
          orWildcard (l.get ⟨i, hi⟩).events) := by
  induction l generalizing i with
  | nil => exact absurd hi (Nat.not_lt_zero i)
  | cons g rest ih =>
    simp only [List.map_cons, List.reverse_cons]
    rw [List.find?_append]
    cases i with
    | zero =>
      have hnone : ((rest.map fun g =>
          (g.channel.name, orWildcard g.events)).reverse).find?
            (fun p => p.1 == ((g :: rest).get ⟨0, hi⟩).channel.name) = none := by
        apply List.find?_eq_none.mpr
        intro x hx
        rw [List.mem_reverse] at hx
        obtain ⟨g2, hg2, rfl⟩ := List.mem_map.mp hx
        obtain ⟨⟨j, hj⟩, hget⟩ := List.mem_iff_get.mp hg2
        have hne := hname (j + 1) (by simpa using Nat.succ_lt_succ hj)
          (Nat.succ_pos j)
        rw [List.get_cons_succ, hget] at hne
        simpa using hne
      rw [hnone]
      simp
    | succ i2 =>
      have hi2 : i2 < rest.length := Nat.lt_of_succ_lt_succ hi
      have hname2 : ∀ j (hj : j < rest.length), i2 < j →
          (rest.get ⟨j, hj⟩).channel.name ≠ (rest.get ⟨i2, hi2⟩).channel.name := by
        intro j hj hlt
        have := hname (j + 1) (Nat.succ_lt_succ hj) (Nat.succ_lt_succ hlt)
        rwa [List.get_cons_succ, List.get_cons_succ] at this
      rw [List.get_cons_succ]
      rw [ih i2 hi2 hname2]
      rfl

/-- When no later registration reuses registration `i`'s channel name,
the filter the router looks up for that channel is exactly the filter
registration `i` supplied. -/
theorem dictGetD_buildRouter (regs : List Registration) (i : Nat)
    (hi : i < regs.length)
    (hname : ∀ j (hj : j < regs.length), i < j →
      (regs.get ⟨j, hj⟩).channel.name ≠ (regs.get ⟨i, hi⟩).channel.name) :
    dictGetD (buildRouter regs).filters
        ((regs.get ⟨i, hi⟩).channel.name) ["*"]
      = orWildcard (regs.get ⟨i, hi⟩).events := by
  unfold dictGetD buildRouter
  rw [foldl_register_filters]
  simp only [List.append_nil]
  rw [find?_latest_filter regs i hi hname]

/-- The string values of the event-type enum are distinct, so a type
whose value is `"phase_completed"` is `phase_completed`. -/
theorem EventType.value_eq_phase_completed (t : EventType)
    (h : t.value = "phase_completed") : t = .phase_completed := by
  cases t <;> revert h <;> decide

/-- C1 (amended).  Provided no later registration reuses the channel's
name (same-name registrations share one filter-dict entry, the most
recently registered one): a channel registered with the explicit filter
`["phase_completed"]` receives, across all dispatch calls, only
`phase_completed` events, and a channel registered with a wildcard
filter (explicit `"*"`, `None`, or the empty list) receives every
dispatched event. -/
theorem C1_filter_respected (regs : List Registration) (i : Nat)
    (hi : i < regs.length)
    (hlast : ∀ j (hj : j < regs.length), i < j →
      (regs.get ⟨j, hj⟩).channel.name ≠ (regs.get ⟨i, hi⟩).channel.name) :
    ((regs.get ⟨i, hi⟩).events = some ["phase_completed"] →
      ∀ e : NotificationEvent, i ∈ (buildRouter regs).matchingIdxs e →
        e.event_type = .phase_completed)
    ∧ ("*" ∈ orWildcard (regs.get ⟨i, hi⟩).events →
      ∀ e : NotificationEvent, i ∈ (buildRouter regs).matchingIdxs e) := by
  have hch : (buildRouter regs).channels = regs.map (fun g => g.channel) := by
    unfold buildRouter
    rw [foldl_register_channels]
    rfl
  have hgetch : (buildRouter regs).channels[i]?
      = some ((regs.get ⟨i, hi⟩).channel) := by
    rw [hch, List.getElem?_map, List.getElem?_eq_getElem hi]
    rfl
  have hdict := dictGetD_buildRouter regs i hi hlast
  constructor
  · intro hev e hmem
    obtain ⟨ch, hget2, hmatch⟩ := mem_matchingIdxs.mp hmem
    have hcheq : ch = (regs.get ⟨i, hi⟩).channel := by
      rw [hgetch] at hget2
      exact (Option.some.inj hget2).symm
    subst hcheq
    unfold NotificationRouter.matches at hmatch
    rw [hdict, hev] at hmatch
    have hv : (orWildcard (some ["phase_completed"])).contains
        e.event_type.value = true := by
      rcases Bool.or_eq_true_iff.mp hmatch with hstar | hval
    -- the explicit filter contains no wildcard
      · exact absurd hstar (by decide)
      · exact hval
    have : e.event_type.value = "phase_completed" := by
      simpa [orWildcard] using hv
    exact EventType.value_eq_phase_completed e.event_type this
  · intro hstar e
    apply mem_matchingIdxs.mpr
    refine ⟨(regs.get ⟨i, hi⟩).channel, hgetch, ?_⟩
    unfold NotificationRouter.matches
    rw [hdict]
    have hc : (orWildcard (regs.get ⟨i, hi⟩).events).contains "*" = true := by
      simpa using hstar
    simp only [hc, Bool.true_or]

/-- Two registrations sharing the channel name `"x"`: the first with
the explicit `phase_completed` filter, the second with the wildcard. -/
def regsC1 : List Registration :=
  [⟨mkChannel "x" false (.ok ()) (.ok true), some ["phase_completed"]⟩,
    ⟨mkChannel "x" false (.ok ()) (.ok true), none⟩]

/-- A finding-type event (not `phase_completed`). -/
def evC1 : NotificationEvent :=
  { event_type := .finding, session_id := "s", title := "t", summary := "m" }

/-- C1 counterexample: after a second registration under the same
channel name with the wildcard filter, the channel registered with the
explicit `["phase_completed"]` filter (position 0) receives a `finding`
event — the claim's guarantee fails when registrations share a name,
because the later registration overwrites the shared filter entry. -/
theorem C1_counterexample :
    (regsC1.map fun g => g.events) = [some ["phase_completed"], none]
    ∧ 0 ∈ (buildRouter regsC1).matchingIdxs evC1
    ∧ evC1.event_type ≠ .phase_completed := by
  refine ⟨rfl, ?_, by decide⟩
  have h : (buildRouter regsC1).matchingIdxs evC1 = [0, 1] := rfl
  rw [h]
  simp

/-- Distinct-name registrations: `"tg"` with the explicit filter,
`"console"` with the wildcard. -/
def regsW1 : List Registration :=
  [⟨mkChannel "tg" true (.ok ()) (.ok true), some ["phase_completed"]⟩,
    ⟨mkChannel "console" false (.ok ()) (.ok true), none⟩]

/-- A phase-completion event. -/
def evW1pc : NotificationEvent :=
  { event_type := .phase_completed, session_id := "s", title := "t"
    summary := "m" }

/-- A finding event. -/
def evW1f : NotificationEvent :=
  { event_type := .finding, session_id := "s", title := "t", summary := "m" }

/-- C1 witness: with distinct names, the explicit-filter channel's
deliveries are `phase_completed` events, and the wildcard channel
(position 1) receives a `finding` event. -/
theorem C1_witness :
    evW1pc.event_type = .phase_completed
    ∧ 1 ∈ (buildRouter regsW1).matchingIdxs evW1f :=
  ⟨(C1_filter_respected regsW1 0 (by decide)
      (by
        intro j hj hlt
        have hlen : regsW1.length = 2 := rfl
        have hj2 : j < 2 := hlen ▸ hj
        interval_cases j
        simp [regsW1, mkChannel])).1 rfl evW1pc (by decide),
    (C1_filter_respected regsW1 1 (by decide)
      (by
        intro j hj hlt
        have hlen : regsW1.length = 2 := rfl
        omega)).2 (by decide) evW1f⟩

end Apollobot
